import Mathlib

/-!
Verification of claims about the DL-Art-School model-definition modules

  codes/models/gpt_voice/unified_voice_bilevel.py
  codes/models/audio/music/transformer_diffusion8_mup.py

The Python sources are shallowly embedded.  Scalar hyperparameters become
Nat/Int/Rat; learned submodules (embeddings, GPT blocks, convolutions) are
represented by opaque parameter identities (Nat ids) together with symbolic
tensor expressions recording exactly which operation of the source is applied
to which argument; token tensors that the code inspects elementwise
(mel codes, text symbols, wav lengths) are concrete lists.  Fallible Python
code (assert statements, attribute errors raised by the PyTorch nn.Module
machinery) is embedded with Except.
-/

/-- Python-level exceptions that the embedded code paths can raise.
`moduleInitError` stands for the AttributeError
"cannot assign module before Module.__init__() call" raised by
torch.nn.Module.__setattr__ when a submodule is assigned on an object whose
nn.Module.__init__ has not run.  Assertion messages (f-strings) are elided. -/
inductive PyErr where
  | assertionError
  | typeError
  | moduleInitError
deriving DecidableEq

/-! ## Tensor dtypes (transformer_diffusion8_mup.py, lines 17-21)

`is_latent` and `is_sequence` only inspect `t.dtype`, so a tensor is embedded
as its dtype. -/

/-- The PyTorch scalar dtypes relevant to the dtype predicates. -/
inductive DType where
  | float16
  | bfloat16
  | float32
  | float64
  | uint8
  | int8
  | int16
  | int32
  | int64
  | bool
deriving DecidableEq

/-- torch dtype.is_floating_point: true exactly for the floating-point dtypes. -/
def DType.is_floating_point : DType → Bool
  | .float16 => true
  | .bfloat16 => true
  | .float32 => true
  | .float64 => true
  | _ => false

/-- An integer dtype in the torch taxonomy (signed or unsigned; torch.bool is
neither floating nor integer for this purpose). -/
def DType.is_integer : DType → Bool
  | .uint8 => true
  | .int8 => true
  | .int16 => true
  | .int32 => true
  | .int64 => true
  | _ => false

/-- A tensor, as far as the dtype predicates observe it. -/
structure Tensor where
  dtype : DType
deriving DecidableEq

/-- torch.float is an alias for the 32-bit dtype torch.float32. -/
def torchFloat : DType := DType.float32

/-- torch.long is an alias for the 64-bit dtype torch.int64. -/
def torchLong : DType := DType.int64

/-- Embedding of `is_latent` (transformer_diffusion8_mup.py line 17):
`return t.dtype == torch.float`. -/
def is_latent (t : Tensor) : Bool := t.dtype == torchFloat

/-- Embedding of `is_sequence` (line 20): `return t.dtype == torch.long`. -/
def is_sequence (t : Tensor) : Bool := t.dtype == torchLong

/-- Claim C7 counterexample: the claimed equivalences fail on concrete
tensors.  A half-precision tensor has a floating-point dtype but is_latent
rejects it (torch.float is only float32), and an int32 tensor has an integer
dtype but is_sequence rejects it (torch.long is only int64). -/
theorem dtype_predicates_claim_false :
    ((is_latent { dtype := DType.float16 } = true ↔
        DType.is_floating_point DType.float16 = true) = False)
    ∧ ((is_sequence { dtype := DType.int32 } = true ↔
        DType.is_integer DType.int32 = true) = False) :=
  ⟨eq_false (by decide), eq_false (by decide)⟩

/-- Claim C7 (amended): is_latent holds exactly for dtype float32 (the meaning
of torch.float) and is_sequence holds exactly for dtype int64 (torch.long);
other floating-point or integer dtypes do not satisfy them. -/
theorem is_latent_is_sequence_exact_dtypes (t : Tensor) :
    (is_latent t = true ↔ t.dtype = DType.float32)
    ∧ (is_sequence t = true ↔ t.dtype = DType.int64) := by
  obtain ⟨d⟩ := t
  cases d <;> simp [is_latent, is_sequence, torchFloat, torchLong]

/-! ## unified_voice_bilevel.py: symbolic tensors

Float tensors produced by the voice model are embedded as symbolic
expressions: each constructor records one tensor operation of the source
together with the identity (a Nat id) of the learned parameters it uses.
Integer token tensors, which the code inspects elementwise, stay concrete
(`List (List Int)`, batch of rows). -/

/-- Symbolic float tensors of unified_voice_bilevel.py. -/
inductive T where
  /-- an input tensor supplied by the caller -/
  | raw (name : String)
  /-- `randomly_permute_conditioning_input`: permute the last dim by the
  drawn permutation, then truncate it to `max_conditioning_length` if longer
  (lines 157-167) -/
  | permuteCond (perm : List Nat) (maxLen : Nat) (x : T)
  /-- `ConditioningEncoder.forward` (lines 36-39) -/
  | condEnc (params : Nat) (x : T)
  /-- `.unsqueeze(1)` -/
  | unsqueeze1 (x : T)
  /-- `self.text_embedding(tokens)` -/
  | textEmbed (params : Nat) (tokens : List (List Int))
  /-- `embedding(torch.arange(len))` for a positional embedding table -/
  | posEmbed (params : Nat) (len : Nat)
  /-- `self.bottom_gpt.get_input_embeddings()(tokens)` -/
  | wte (params : Nat) (tokens : List (List Int))
  /-- elementwise `+` -/
  | add (a b : T)
  /-- `torch.cat([a, b], dim=1)` -/
  | cat2 (a b : T)
  /-- `torch.cat([a, b, c], dim=1)` -/
  | cat3 (a b c : T)
  /-- `self.bottom_gpt(inputs_embeds=x, ...).last_hidden_state` -/
  | gptHidden (params : Nat) (x : T)
  /-- `self.bottom_gpt(inputs_embeds=x, output_attentions=True).attentions` -/
  | gptAttns (params : Nat) (x : T)
  /-- `x[:, i:]` -/
  | sliceFrom (i : Nat) (x : T)
  /-- `x[:, :n]` -/
  | takeFirst (n : Nat) (x : T)
  /-- `x[:, -n:]` -/
  | takeLast (n : Nat) (x : T)
  /-- `self.final_norm(x)` -/
  | layerNorm (params : Nat) (x : T)
  /-- a `nn.Linear` head applied to x -/
  | linear (params : Nat) (x : T)
  /-- `x.permute(0,2,1)` -/
  | permute021 (x : T)
  /-- `F.cross_entropy(logits, targets.long())` -/
  | crossEntropy (logits : T) (targets : List (List Int))
  /-- `.mean()` -/
  | meanT (x : T)
deriving DecidableEq

/-- `x.shape[1]` of a rectangular batch of token rows. -/
def shape1 (x : List (List Int)) : Nat := (x.headD []).length

/-- `shape[1]` of a symbolic tensor, defined on the constructors the embedded
code paths consult it on (embedded token sequences, their sums/slices, and the
unsqueezed conditioning vector); constructors whose dim-1 extent is never
consulted by the source map to 0. -/
def T.len1 : T → Nat
  | .raw _ => 0
  | .permuteCond _ _ _ => 0
  | .condEnc _ _ => 0
  | .unsqueeze1 _ => 1
  | .textEmbed _ tokens => shape1 tokens
  | .posEmbed _ len => len
  | .wte _ tokens => shape1 tokens
  | .add a _ => a.len1
  | .cat2 a b => a.len1 + b.len1
  | .cat3 a b c => a.len1 + b.len1 + c.len1
  | .gptHidden _ x => x.len1
  | .gptAttns _ _ => 0
  | .sliceFrom i x => x.len1 - i
  | .takeFirst n _ => n
  | .takeLast n _ => n
  | .layerNorm _ x => x.len1
  | .linear _ x => x.len1
  | .permute021 _ => 0
  | .crossEntropy _ _ => 0
  | .meanT _ => 0

/-! ## unified_voice_bilevel.py: model structures -/

/-- The fields TopEncoder.__init__ (lines 42-51) intends to set; each learned
submodule is an opaque parameter identity. -/
structure TopEncoder where
  init : Nat
  reduction_layers : Nat
  actual_layers : Nat
deriving DecidableEq

/-- The GPT2Config values constructed in UnifiedGptVoice.__init__. -/
structure GPT2Cfg where
  vocab_size : Nat
  n_positions : Nat
  n_ctx : Nat
  n_embd : Nat
  n_layer : Nat
  n_head : Nat
  gradient_checkpointing : Bool
  use_cache : Bool
deriving DecidableEq

/-- The state UnifiedGptVoice.__init__ (lines 69-136) stores on self.
Learned submodules are opaque parameter identities; the replacement of
`bottom_gpt.wpe` by `null_position_embeddings` (lines 123-124) and the GPT-2
style re-initialization of the embedding weights (lines 131-136) only change
what the opaque ids denote. -/
structure UnifiedGptVoice where
  number_text_tokens : Nat
  start_text_token : Int
  stop_text_token : Int
  number_mel_codes : Nat
  start_mel_token : Int
  stop_mel_token : Int
  max_mel_tokens : Nat
  max_symbols_per_phrase : Nat
  max_total_tokens : Nat
  model_dim : Nat
  max_conditioning_inputs : Nat
  mel_length_compression : Nat
  conditioning_encoder : Nat
  text_embedding : Nat
  text_pos_solo_embedding : Nat
  text_pos_paired_embedding : Nat
  mel_pos_solo_embedding : Nat
  mel_pos_paired_embedding : Nat
  top_encoder : TopEncoder
  top_gpt_config : GPT2Cfg
  top_gpt : Nat
  top_gpt_start_embedding : Nat
  top_dim_reduction : Nat
  bottom_gpt_config : GPT2Cfg
  bottom_gpt : Nat
  final_norm : Nat
  text_head : Nat
  mel_head : Nat
  max_conditioning_length : Nat
deriving DecidableEq

/-- The keyword arguments of UnifiedGptVoice.__init__ (lines 69-73). -/
structure UGVConfig where
  top_encoder_layers : Nat
  top_layers : Nat
  bottom_layers : Nat
  top_dim_reduction : Nat
  model_dim : Nat
  heads : Nat
  max_symbols_per_phrase : Nat
  max_mel_tokens : Nat
  max_total_tokens : Nat
  max_conditioning_inputs : Nat
  checkpointing : Bool
  mel_length_compression : Nat
  max_conditioning_length : Nat
  number_text_tokens : Nat
  start_text_token : Int
  stop_text_token : Int
  number_mel_codes : Nat
  start_mel_token : Int
  stop_mel_token : Int
deriving DecidableEq

/-- The default keyword arguments of UnifiedGptVoice.__init__. -/
def defaultUGVConfig : UGVConfig :=
  { top_encoder_layers := 4
    top_layers := 8
    bottom_layers := 8
    top_dim_reduction := 16
    model_dim := 512
    heads := 8
    max_symbols_per_phrase := 120
    max_mel_tokens := 250
    max_total_tokens := 370
    max_conditioning_inputs := 3
    checkpointing := true
    mel_length_compression := 1024
    max_conditioning_length := 60
    number_text_tokens := 256
    start_text_token := 255
    stop_text_token := 0
    number_mel_codes := 8194
    start_mel_token := 8192
    stop_mel_token := 8193 }

/-! ## unified_voice_bilevel.py: construction (claim C1) -/

/-- The nn.Module bookkeeping state observed by torch.nn.Module.__setattr__:
whether nn.Module.__init__ has run on this object (creating the _parameters
and _modules dicts). -/
structure NnModuleState where
  initCalled : Bool

/-- torch.nn.Module.__setattr__ on a submodule value: succeeds when
nn.Module.__init__ has run, otherwise raises
AttributeError("cannot assign module before Module.__init__() call"). -/
def NnModuleState.assignModuleAttr (st : NnModuleState) : Except PyErr Unit :=
  if st.initCalled then Except.ok () else Except.error PyErr.moduleInitError

/-- Embedding of TopEncoder.__init__ (lines 43-51).  The source never calls
`super().__init__()`, so the nn.Module state is uninitialized when the first
submodule assignment `self.init = nn.Conv1d(dim, dim, kernel_size=1)` (line
44) runs, and that assignment raises; the remaining statements (the reduction
stack of `int(log(dim_reduction, 2))` attention/conv pairs and the
`layers` attention blocks) are unreachable. -/
def TopEncoder.init_ (layers dim heads : Nat) (do_checkpointing : Bool)
    (dim_reduction : Nat) : Except PyErr TopEncoder := do
  let st : NnModuleState := { initCalled := false }
  st.assignModuleAttr
  let _unused := (layers, dim, heads, do_checkpointing)
  st.assignModuleAttr
  st.assignModuleAttr
  Except.ok { init := 0, reduction_layers := Nat.log2 dim_reduction, actual_layers := layers }

/-- Embedding of UnifiedGptVoice.__init__ (lines 69-136).  `super().__init__()`
is called (line 74), so the assignments on self succeed until line 97
constructs the TopEncoder, whose __init__ raises (see `TopEncoder.init_`);
every later statement is unreachable.  The successful scalar assignments of
lines 76-95 are collapsed into the final structure literal; learned submodules
are given distinct opaque parameter ids. -/
def UnifiedGptVoice.init_ (cfg : UGVConfig) : Except PyErr UnifiedGptVoice := do
  let seq_length := 2 + cfg.max_total_tokens + cfg.max_conditioning_inputs
  let top_encoder ← TopEncoder.init_ cfg.top_encoder_layers cfg.model_dim cfg.heads
      cfg.checkpointing cfg.top_dim_reduction
  Except.ok
    { number_text_tokens := cfg.number_text_tokens
      start_text_token := cfg.start_text_token
      stop_text_token := cfg.stop_text_token
      number_mel_codes := cfg.number_mel_codes
      start_mel_token := cfg.start_mel_token
      stop_mel_token := cfg.stop_mel_token
      max_mel_tokens := cfg.max_mel_tokens
      max_symbols_per_phrase := cfg.max_symbols_per_phrase
      max_total_tokens := cfg.max_total_tokens
      model_dim := cfg.model_dim
      max_conditioning_inputs := cfg.max_conditioning_inputs
      mel_length_compression := cfg.mel_length_compression
      conditioning_encoder := 1
      text_embedding := 2
      text_pos_solo_embedding := 3
      text_pos_paired_embedding := 4
      mel_pos_solo_embedding := 5
      mel_pos_paired_embedding := 6
      top_encoder := top_encoder
      top_gpt_config :=
        { vocab_size := 1
          n_positions := seq_length / cfg.top_dim_reduction
          n_ctx := seq_length / cfg.top_dim_reduction
          n_embd := cfg.model_dim
          n_layer := cfg.top_layers
          n_head := cfg.heads
          gradient_checkpointing := cfg.checkpointing
          use_cache := !cfg.checkpointing }
      top_gpt := 7
      top_gpt_start_embedding := 8
      top_dim_reduction := cfg.top_dim_reduction
      bottom_gpt_config :=
        { vocab_size := cfg.number_mel_codes
          n_positions := seq_length
          n_ctx := seq_length
          n_embd := cfg.model_dim
          n_layer := cfg.bottom_layers
          n_head := cfg.heads
          gradient_checkpointing := cfg.checkpointing
          use_cache := !cfg.checkpointing }
      bottom_gpt := 9
      final_norm := 10
      text_head := 11
      mel_head := 12
      max_conditioning_length := cfg.max_conditioning_length }

/-! ## unified_voice_bilevel.py: methods -/

/-- Embedding of `build_aligned_inputs_and_targets` (lines 138-141) on one
token row: `F.pad(input, (1,0), value=start_token)` prepends the start token
along the last dim and `F.pad(input, (0,1), value=stop_token)` appends the
stop token.  (The source method ignores self.) -/
def build_aligned_inputs_and_targets (input : List Int) (start_token stop_token : Int) :
    List Int × List Int :=
  (start_token :: input, input ++ [stop_token])

/-- `build_aligned_inputs_and_targets` applied to a batched 2-d token tensor:
F.pad pads the last dimension, i.e. acts on every row. -/
def build_aligned_batch (x : List (List Int)) (start_token stop_token : Int) :
    List (List Int) × List (List Int) :=
  (x.map fun r => (build_aligned_inputs_and_targets r start_token stop_token).1,
   x.map fun r => (build_aligned_inputs_and_targets r start_token stop_token).2)

/-- Embedding of `set_mel_padding` (lines 143-155).  mel_lengths =
wav_lengths // mel_length_compression; for each batch row b in
range(len(mel_lengths)), with actual_end = mel_lengths[b] + 1, positions from
actual_end on are overwritten with stop_mel_token when actual_end <
row length.  (When len(wav_lengths) exceeds the batch size the source loop
would raise an IndexError; rows beyond len(wav_lengths) are outside the loop
and stay unchanged, as here.) -/
def UnifiedGptVoice.set_mel_padding (m : UnifiedGptVoice)
    (mel_input_tokens : List (List Int)) (wav_lengths : List Nat) :
    List (List Int) :=
  mel_input_tokens.mapIdx fun b row =>
    match wav_lengths[b]? with
    | some wl =>
        let actual_end := wl / m.mel_length_compression + 1
        if actual_end < row.length then
          row.take actual_end ++ List.replicate (row.length - actual_end) m.stop_mel_token
        else row
    | none => row

/-- Embedding of `randomly_permute_conditioning_input` (lines 157-167).  The
outcome of `torch.randperm` is passed in explicitly as `perm`; the permutation
and the conditional truncation to max_conditioning_length are recorded
symbolically. -/
def UnifiedGptVoice.randomly_permute_conditioning_input (m : UnifiedGptVoice)
    (perm : List Nat) (speech_conditioning_input : T) : T :=
  T.permuteCond perm m.max_conditioning_length speech_conditioning_input

/-- Result of `get_logits` (lines 190-211): the attentions, one logit tensor,
or a pair of logit tensors, matching the three return statements. -/
inductive GLOut where
  | attns (a : T)
  | one (first_logits : T)
  | two (first_logits second_logits : T)
deriving DecidableEq

/-- Embedding of `get_logits` (lines 190-211). -/
def UnifiedGptVoice.get_logits (m : UnifiedGptVoice)
    (speech_conditioning_input first_inputs : T) (first_head : T → T)
    (second_inputs : Option T) (second_head : Option (T → T))
    (get_attns : Bool) : GLOut :=
  let emb := match second_inputs with
    | some si => T.cat3 speech_conditioning_input first_inputs si
    | none => T.cat2 speech_conditioning_input first_inputs
  if get_attns then GLOut.attns (T.gptAttns m.bottom_gpt emb)
  else
    let enc := T.layerNorm m.final_norm (T.sliceFrom 1 (T.gptHidden m.bottom_gpt emb))
    let first_logits := T.permute021 (first_head (T.takeFirst first_inputs.len1 enc))
    match second_inputs, second_head with
    | some si, some sh =>
        GLOut.two first_logits (T.permute021 (sh (T.takeLast si.len1 enc)))
    | _, _ => GLOut.one first_logits

/-- Result of `forward` (lines 213-246): either the attentions (when
return_attentions is true; the source unpacks the per-layer attention tuple
into two names and returns the second, which we record as the attentions
value) or the triple (loss_text.mean(), loss_mel.mean(), mel_logits). -/
inductive FwdOut where
  | attns (a : T)
  | losses (loss_text loss_mel mel_logits : T)
deriving DecidableEq

/-- Embedding of `UnifiedGptVoice.forward` (lines 213-246).  An `assert c`
raises AssertionError exactly when c is false, so the three validation
asserts of lines 223-225 become the three leading error branches. -/
def UnifiedGptVoice.forward (m : UnifiedGptVoice) (perm : List Nat)
    (speech_conditioning_input : T) (text_inputs mel_inputs : List (List Int))
    (wav_lengths : List Nat) (text_first return_attentions : Bool) :
    Except PyErr FwdOut :=
  if m.max_mel_tokens < shape1 mel_inputs then Except.error PyErr.assertionError
  else if m.max_symbols_per_phrase < shape1 text_inputs then Except.error PyErr.assertionError
  else if m.max_total_tokens < shape1 mel_inputs + shape1 text_inputs then
    Except.error PyErr.assertionError
  else
    let mel_inputs := m.set_mel_padding mel_inputs wav_lengths
    let speech := T.unsqueeze1 (T.condEnc m.conditioning_encoder
      (m.randomly_permute_conditioning_input perm speech_conditioning_input))
    let tp := build_aligned_batch text_inputs m.start_text_token m.stop_text_token
    let text_emb := T.add (T.textEmbed m.text_embedding tp.1)
      (T.posEmbed m.text_pos_paired_embedding (shape1 tp.1))
    let mp := build_aligned_batch mel_inputs m.start_mel_token m.stop_mel_token
    let mel_emb0 := T.wte m.bottom_gpt mp.1
    let mel_emb := T.add mel_emb0 (T.posEmbed m.mel_pos_paired_embedding mel_emb0.len1)
    let gl :=
      if text_first then
        m.get_logits speech text_emb (T.linear m.text_head)
          (some mel_emb) (some (T.linear m.mel_head)) return_attentions
      else
        m.get_logits speech mel_emb (T.linear m.mel_head)
          (some text_emb) (some (T.linear m.text_head)) return_attentions
    match gl with
    | GLOut.attns a => Except.ok (FwdOut.attns a)
    | GLOut.two fl sl =>
        let text_logits := if text_first then fl else sl
        let mel_logits := if text_first then sl else fl
        Except.ok (FwdOut.losses
          (T.meanT (T.crossEntropy text_logits tp.2))
          (T.meanT (T.crossEntropy mel_logits mp.2))
          mel_logits)
    | GLOut.one _ => Except.error PyErr.typeError

/-- Embedding of `text_forward` (lines 248-262). -/
def UnifiedGptVoice.text_forward (m : UnifiedGptVoice) (perm : List Nat)
    (speech_conditioning_input : T) (text_inputs : List (List Int)) :
    Except PyErr T :=
  if m.max_symbols_per_phrase < shape1 text_inputs then Except.error PyErr.assertionError
  else
    let speech := T.unsqueeze1 (T.condEnc m.conditioning_encoder
      (m.randomly_permute_conditioning_input perm speech_conditioning_input))
    let tp := build_aligned_batch text_inputs m.start_text_token m.stop_text_token
    let text_emb := T.add (T.textEmbed m.text_embedding tp.1)
      (T.posEmbed m.text_pos_solo_embedding (shape1 tp.1))
    match m.get_logits speech text_emb (T.linear m.text_head) none none false with
    | GLOut.one text_logits => Except.ok (T.meanT (T.crossEntropy text_logits tp.2))
    | _ => Except.error PyErr.typeError

/-- Embedding of `speech_forward` (lines 264-279). -/
def UnifiedGptVoice.speech_forward (m : UnifiedGptVoice) (perm : List Nat)
    (speech_conditioning_input : T) (mel_inputs : List (List Int))
    (wav_lengths : List Nat) : Except PyErr T :=
  if m.max_mel_tokens < shape1 mel_inputs then Except.error PyErr.assertionError
  else
    let mel_inputs := m.set_mel_padding mel_inputs wav_lengths
    let speech := T.unsqueeze1 (T.condEnc m.conditioning_encoder
      (m.randomly_permute_conditioning_input perm speech_conditioning_input))
    let mp := build_aligned_batch mel_inputs m.start_mel_token m.stop_mel_token
    let mel_emb0 := T.wte m.bottom_gpt mp.1
    let mel_emb := T.add mel_emb0 (T.posEmbed m.mel_pos_solo_embedding mel_emb0.len1)
    match m.get_logits speech mel_emb (T.linear m.mel_head) none none false with
    | GLOut.one mel_logits => Except.ok (T.meanT (T.crossEntropy mel_logits mp.2))
    | _ => Except.error PyErr.typeError

/-- Replace the top-level components (the TopEncoder and the top GPT with its
start embedding) of a model, leaving everything else unchanged. -/
def UnifiedGptVoice.setTop (m : UnifiedGptVoice) (te : TopEncoder)
    (tg tgs : Nat) : UnifiedGptVoice :=
  { m with top_encoder := te, top_gpt := tg, top_gpt_start_embedding := tgs }

/-- A concrete model instance carrying the default hyperparameters, used to
instantiate witnesses.  (UnifiedGptVoice.init_ itself always raises, see
claim C1, so instances are built directly.) -/
def ugvTest : UnifiedGptVoice :=
  { number_text_tokens := 256
    start_text_token := 255
    stop_text_token := 0
    number_mel_codes := 8194
    start_mel_token := 8192
    stop_mel_token := 8193
    max_mel_tokens := 250
    max_symbols_per_phrase := 120
    max_total_tokens := 370
    model_dim := 512
    max_conditioning_inputs := 3
    mel_length_compression := 1024
    conditioning_encoder := 1
    text_embedding := 2
    text_pos_solo_embedding := 3
    text_pos_paired_embedding := 4
    mel_pos_solo_embedding := 5
    mel_pos_paired_embedding := 6
    top_encoder := { init := 0, reduction_layers := 4, actual_layers := 4 }
    top_gpt_config :=
      { vocab_size := 1, n_positions := 23, n_ctx := 23, n_embd := 512, n_layer := 8,
        n_head := 8, gradient_checkpointing := true, use_cache := false }
    top_gpt := 7
    top_gpt_start_embedding := 8
    top_dim_reduction := 16
    bottom_gpt_config :=
      { vocab_size := 8194, n_positions := 375, n_ctx := 375, n_embd := 512, n_layer := 8,
        n_head := 8, gradient_checkpointing := true, use_cache := false }
    bottom_gpt := 9
    final_norm := 10
    text_head := 11
    mel_head := 12
    max_conditioning_length := 60 }

/-- Claim C1 (the code contradicts it): constructing UnifiedGptVoice never
succeeds.  TopEncoder.__init__ (line 43) omits super().__init__(), so its
first submodule assignment raises AttributeError, which propagates out of
UnifiedGptVoice.__init__ (line 97) for every configuration, in particular the
default one; the forward pass can never run on a constructed model. -/
theorem unifiedGptVoice_init_raises_moduleInitError :
    UnifiedGptVoice.init_ defaultUGVConfig = Except.error PyErr.moduleInitError
    ∧ ∀ cfg : UGVConfig, UnifiedGptVoice.init_ cfg = Except.error PyErr.moduleInitError :=
  ⟨rfl, fun _ => rfl⟩

/-- Claim C2: the validation asserts of forward (lines 223-225) raise
AssertionError exactly when the mel length exceeds max_mel_tokens, or the
text length exceeds max_symbols_per_phrase, or their sum exceeds
max_total_tokens; the single-bound asserts of text_forward (line 253) and
speech_forward (line 268) raise exactly when their respective bound fails. -/
theorem forward_assertion_validation_iff (m : UnifiedGptVoice) (perm : List Nat)
    (cond : T) (text_inputs mel_inputs : List (List Int)) (wav : List Nat)
    (tf ra : Bool) :
    (UnifiedGptVoice.forward m perm cond text_inputs mel_inputs wav tf ra
        = Except.error PyErr.assertionError
      ↔ (m.max_mel_tokens < shape1 mel_inputs
          ∨ m.max_symbols_per_phrase < shape1 text_inputs
          ∨ m.max_total_tokens < shape1 mel_inputs + shape1 text_inputs))
    ∧ (UnifiedGptVoice.text_forward m perm cond text_inputs
        = Except.error PyErr.assertionError
      ↔ m.max_symbols_per_phrase < shape1 text_inputs)
    ∧ (UnifiedGptVoice.speech_forward m perm cond mel_inputs wav
        = Except.error PyErr.assertionError
      ↔ m.max_mel_tokens < shape1 mel_inputs) := by
  refine ⟨?_, ?_, ?_⟩
  · unfold UnifiedGptVoice.forward
    split_ifs with h1 h2 h3
    · exact iff_of_true rfl (Or.inl h1)
    · exact iff_of_true rfl (Or.inr (Or.inl h2))
    · exact iff_of_true rfl (Or.inr (Or.inr h3))
    all_goals
      refine iff_of_false ?_ (fun h => h.elim h1 fun h => h.elim h2 h3)
      cases ra <;> simp [UnifiedGptVoice.get_logits]
  · unfold UnifiedGptVoice.text_forward
    split_ifs with h
    · exact iff_of_true rfl h
    · refine iff_of_false ?_ h
      simp [UnifiedGptVoice.get_logits]
  · unfold UnifiedGptVoice.speech_forward
    split_ifs with h
    · exact iff_of_true rfl h
    · refine iff_of_false ?_ h
      simp [UnifiedGptVoice.get_logits]

/-- Claim C3: within the token limits and with return_attentions false,
forward returns exactly the triple (text cross-entropy loss, mel
cross-entropy loss, mel logits), each loss taken against the targets built by
build_aligned_inputs_and_targets, i.e. the input rows followed by the
respective stop token (for the mel side, the rows after set_mel_padding). -/
theorem forward_returns_losses_triple (m : UnifiedGptVoice) (perm : List Nat)
    (cond : T) (text_inputs mel_inputs : List (List Int)) (wav : List Nat)
    (tf : Bool)
    (h1 : shape1 mel_inputs ≤ m.max_mel_tokens)
    (h2 : shape1 text_inputs ≤ m.max_symbols_per_phrase)
    (h3 : shape1 mel_inputs + shape1 text_inputs ≤ m.max_total_tokens) :
    ∃ tl ml,
      UnifiedGptVoice.forward m perm cond text_inputs mel_inputs wav tf false
        = Except.ok (FwdOut.losses
            (T.meanT (T.crossEntropy tl
              (build_aligned_batch text_inputs m.start_text_token m.stop_text_token).2))
            (T.meanT (T.crossEntropy ml
              (build_aligned_batch (m.set_mel_padding mel_inputs wav)
                m.start_mel_token m.stop_mel_token).2))
            ml)
      ∧ (build_aligned_batch text_inputs m.start_text_token m.stop_text_token).2
          = text_inputs.map (fun r => r ++ [m.stop_text_token])
      ∧ (build_aligned_batch (m.set_mel_padding mel_inputs wav)
            m.start_mel_token m.stop_mel_token).2
          = (m.set_mel_padding mel_inputs wav).map (fun r => r ++ [m.stop_mel_token]) := by
  unfold UnifiedGptVoice.forward
  rw [if_neg (by omega), if_neg (by omega), if_neg (by omega)]
  cases tf
  · exact ⟨_, _, rfl, rfl, rfl⟩
  · exact ⟨_, _, rfl, rfl, rfl⟩

/-- Witness for claim C3 at a concrete model and input. -/
theorem forward_returns_losses_triple_witness :
    shape1 [[3]] ≤ ugvTest.max_mel_tokens
    ∧ shape1 [[1, 2]] ≤ ugvTest.max_symbols_per_phrase
    ∧ shape1 [[3]] + shape1 [[1, 2]] ≤ ugvTest.max_total_tokens
    ∧ ∃ tl ml,
        UnifiedGptVoice.forward ugvTest [0] (T.raw "cond") [[1, 2]] [[3]] [2048] true false
          = Except.ok (FwdOut.losses
              (T.meanT (T.crossEntropy tl
                (build_aligned_batch [[1, 2]] ugvTest.start_text_token ugvTest.stop_text_token).2))
              (T.meanT (T.crossEntropy ml
                (build_aligned_batch (ugvTest.set_mel_padding [[3]] [2048])
                  ugvTest.start_mel_token ugvTest.stop_mel_token).2))
              ml)
        ∧ (build_aligned_batch [[1, 2]] ugvTest.start_text_token ugvTest.stop_text_token).2
            = [[1, 2]].map (fun r => r ++ [ugvTest.stop_text_token])
        ∧ (build_aligned_batch (ugvTest.set_mel_padding [[3]] [2048])
              ugvTest.start_mel_token ugvTest.stop_mel_token).2
            = (ugvTest.set_mel_padding [[3]] [2048]).map (fun r => r ++ [ugvTest.stop_mel_token]) :=
  ⟨by decide, by decide, by decide,
    forward_returns_losses_triple ugvTest [0] (T.raw "cond") [[1, 2]] [[3]] [2048] true
      (by decide) (by decide) (by decide)⟩

/-- Claim C4 as stated: there are two settings of the top-level components
(top_encoder, top_gpt, top_gpt_start_embedding) and an input on which
forward produces different outputs. -/
def claimC4Statement : Prop :=
  ∃ (m : UnifiedGptVoice) (te1 : TopEncoder) (tg1 tgs1 : Nat) (te2 : TopEncoder)
    (tg2 tgs2 : Nat) (perm : List Nat) (cond : T)
    (text_inputs mel_inputs : List (List Int)) (wav : List Nat) (tf ra : Bool),
    UnifiedGptVoice.forward (m.setTop te1 tg1 tgs1) perm cond text_inputs mel_inputs wav tf ra
      ≠ UnifiedGptVoice.forward (m.setTop te2 tg2 tgs2) perm cond text_inputs mel_inputs wav tf ra

/-- Claim C4 is false: forward (lines 213-246) never reads top_encoder,
top_gpt or top_gpt_start_embedding (inject_top_embeddings is never called),
so no choice of top-level components and input makes its outputs differ. -/
theorem top_level_dependence_claim_false : claimC4Statement = False :=
  eq_false fun ⟨_, _, _, _, _, _, _, _, _, _, _, _, _, _, hne⟩ => hne rfl

/-- Claim C4 (amended): the outputs of forward are independent of the
top-level autoregressive components; any two settings of them produce
identical outputs on every input. -/
theorem forward_independent_of_top_level (m : UnifiedGptVoice) (te1 : TopEncoder)
    (tg1 tgs1 : Nat) (te2 : TopEncoder) (tg2 tgs2 : Nat) (perm : List Nat) (cond : T)
    (text_inputs mel_inputs : List (List Int)) (wav : List Nat) (tf ra : Bool) :
    UnifiedGptVoice.forward (m.setTop te1 tg1 tgs1) perm cond text_inputs mel_inputs wav tf ra
      = UnifiedGptVoice.forward (m.setTop te2 tg2 tgs2) perm cond text_inputs mel_inputs wav tf ra :=
  rfl

/-- Claim C9: build_aligned_inputs_and_targets prepends the start token to
form the inputs and appends the stop token to form the targets, so the
targets are the inputs shifted left by one. -/
theorem build_aligned_inputs_and_targets_spec (x : List Int) (s e : Int) :
    (build_aligned_inputs_and_targets x s e).1.length = x.length + 1
    ∧ (build_aligned_inputs_and_targets x s e).2.length = x.length + 1
    ∧ (build_aligned_inputs_and_targets x s e).1[0]? = some s
    ∧ (build_aligned_inputs_and_targets x s e).2[x.length]? = some e
    ∧ ∀ i, i < x.length →
        (build_aligned_inputs_and_targets x s e).1[i + 1]? = x[i]?
        ∧ (build_aligned_inputs_and_targets x s e).2[i]? = x[i]?
        ∧ (build_aligned_inputs_and_targets x s e).2[i]?
            = (build_aligned_inputs_and_targets x s e).1[i + 1]? := by
  unfold build_aligned_inputs_and_targets
  refine ⟨by simp, by simp, by simp, List.getElem?_concat_length x e, fun i hi => ?_⟩
  have ha : (s :: x)[i + 1]? = x[i]? := by simp
  have hb : (x ++ [e])[i]? = x[i]? := by
    rw [List.getElem?_append]
    exact if_pos hi
  exact ⟨ha, hb, hb.trans ha.symm⟩

/-- Witness for claim C9 at a concrete sequence. -/
theorem build_aligned_inputs_and_targets_spec_witness :
    (build_aligned_inputs_and_targets [5, 7] 1 2).1.length = 2 + 1
    ∧ (build_aligned_inputs_and_targets [5, 7] 1 2).2.length = 2 + 1
    ∧ (build_aligned_inputs_and_targets [5, 7] 1 2).1[0]? = some 1
    ∧ (build_aligned_inputs_and_targets [5, 7] 1 2).2[[5, 7].length]? = some 2
    ∧ ∀ i, i < [5, 7].length →
        (build_aligned_inputs_and_targets [5, 7] 1 2).1[i + 1]? = [5, 7][i]?
        ∧ (build_aligned_inputs_and_targets [5, 7] 1 2).2[i]? = [5, 7][i]?
        ∧ (build_aligned_inputs_and_targets [5, 7] 1 2).2[i]?
            = (build_aligned_inputs_and_targets [5, 7] 1 2).1[i + 1]? :=
  build_aligned_inputs_and_targets_spec [5, 7] 1 2

/-- Claim C8: set_mel_padding keeps the batch shape; in row b, with
L = wav_lengths[b] // mel_length_compression, every position at index at
least L + 1 becomes stop_mel_token and every earlier position is unchanged
(so a row whose length is at most L + 1 is entirely unchanged). -/
theorem set_mel_padding_rows_characterization (m : UnifiedGptVoice)
    (mel : List (List Int)) (wav : List Nat) (b : Nat) (row : List Int) (wl : Nat)
    (hb : mel[b]? = some row) (hw : wav[b]? = some wl) :
    (m.set_mel_padding mel wav).length = mel.length
    ∧ ∃ rowOut, (m.set_mel_padding mel wav)[b]? = some rowOut
        ∧ rowOut.length = row.length
        ∧ ∀ j, j < row.length →
            rowOut[j]? = if wl / m.mel_length_compression + 1 ≤ j
              then some m.stop_mel_token else row[j]? := by
  unfold UnifiedGptVoice.set_mel_padding
  refine ⟨List.length_mapIdx, ?_⟩
  by_cases hk : wl / m.mel_length_compression + 1 < row.length
  · refine ⟨row.take (wl / m.mel_length_compression + 1)
        ++ List.replicate (row.length - (wl / m.mel_length_compression + 1)) m.stop_mel_token,
      ?_, ?_, ?_⟩
    · rw [List.getElem?_mapIdx, hb]
      simp [hw, hk]
    · rw [List.length_append, List.length_take, List.length_replicate,
        min_eq_left hk.le]
      omega
    · intro j hj
      have htk : (row.take (wl / m.mel_length_compression + 1)).length
          = wl / m.mel_length_compression + 1 := by
        rw [List.length_take]
        exact min_eq_left hk.le
      by_cases hkj : wl / m.mel_length_compression + 1 ≤ j
      · rw [if_pos hkj, List.getElem?_append_right (htk.le.trans hkj), htk,
          List.getElem?_replicate, if_pos (by omega)]
      · rw [if_neg hkj, List.getElem?_append, htk, if_pos (by omega),
          List.getElem?_take, if_pos (by omega)]
  · refine ⟨row, ?_, rfl, ?_⟩
    · rw [List.getElem?_mapIdx, hb]
      simp [hw, hk]
    · intro j hj
      rw [if_neg (by omega)]

/-- Witness for claim C8 at a concrete batch. -/
theorem set_mel_padding_rows_characterization_witness :
    ([[4, 5, 6]] : List (List Int))[0]? = some [4, 5, 6]
    ∧ ([1024] : List Nat)[0]? = some 1024
    ∧ ((ugvTest.set_mel_padding [[4, 5, 6]] [1024]).length = ([[4, 5, 6]] : List (List Int)).length
      ∧ ∃ rowOut, (ugvTest.set_mel_padding [[4, 5, 6]] [1024])[0]? = some rowOut
          ∧ rowOut.length = ([4, 5, 6] : List Int).length
          ∧ ∀ j, j < ([4, 5, 6] : List Int).length →
              rowOut[j]? = if 1024 / ugvTest.mel_length_compression + 1 ≤ j
                then some ugvTest.stop_mel_token else ([4, 5, 6] : List Int)[j]?) :=
  ⟨by decide, by decide,
    set_mel_padding_rows_characterization ugvTest [[4, 5, 6]] [1024] 0 [4, 5, 6] 1024
      (by decide) (by decide)⟩

/-! ## transformer_diffusion8_mup.py: symbolic tensors

As for the voice model, float tensors are symbolic expressions recording the
source operations; outcomes of the random draws (the classifier-free masking
of timestep_independent) and the tensor shapes the code branches on are
passed in explicitly. -/

/-- Symbolic float tensors of transformer_diffusion8_mup.py. -/
inductive DT where
  /-- an input tensor supplied by the caller -/
  | raw (name : String)
  /-- `self.ar_input(prior)` (line 159) -/
  | arInput (params : Nat) (x : DT)
  /-- `self.input_converter(prior)` (line 159) -/
  | inputConverter (params : Nat) (x : DT)
  /-- `self.unconditioned_embedding.repeat(prior.shape[0], 1, 1)` (line 165) -/
  | uncondRepeatBatch (params : Nat) (batch : Nat)
  /-- `torch.where(unconditioned_batches, uncond, code_emb)` (lines 163-166);
  draws holds the outcomes of `torch.rand(...) < unconditioned_percentage` -/
  | whereUncond (draws : List Bool) (uncond code : DT)
  /-- `self.ar_prior_intg(code_emb)` (line 167) -/
  | arPriorIntg (params : Nat) (x : DT)
  /-- `self.code_converter(code_emb)` (line 167) -/
  | codeConverter (params : Nat) (x : DT)
  /-- `F.interpolate(code_emb.permute(0,2,1), size=expected_seq_len,
  mode=nearest).permute(0,2,1)` (line 169) -/
  | interpolateNearest (x : DT) (size : Nat)
  /-- `self.unconditioned_embedding.repeat(x.shape[0], x.shape[-1], 1)`
  (line 178) -/
  | uncondRepeat (params : Nat) (batch seqLen : Nat)
  /-- `timestep_embedding(timesteps, self.prenet_channels)` (line 186) -/
  | timestepEmbedding (t : DT) (dim : Nat)
  /-- `self.time_embed(x)` (line 186) -/
  | timeEmbed (params : Nat) (x : DT)
  /-- `self.inp_block(x).permute(0,2,1)` (line 187) -/
  | inpBlockPermuted (params : Nat) (x : DT)
  /-- `self.rotary_embeddings(x.shape[1], x.device)` (line 189) -/
  | rotary (params : Nat) (x : DT)
  /-- `self.intg(torch.cat([x, code_emb], dim=-1))` (line 190) -/
  | intgCat (params : Nat) (x code : DT)
  /-- `checkpoint(layer, x, blk_emb, rotary_pos_emb)` for one
  DietAttentionBlock (lines 191-192) -/
  | layerApp (params : Nat) (x blk rot : DT)
  /-- `x.float().permute(0,2,1)` (line 194) -/
  | toFloatPermuted (x : DT)
  /-- `self.out(x)` (line 195) -/
  | outBlock (params : Nat) (x : DT)
  /-- `out + (sum of p.mean() over the listed parameters) * 0`
  (lines 197-201 and 233-237) -/
  | plusZeroScaledMeans (params : List Nat) (x : DT)
  /-- `self.quantizer(truth_mel, return_decoder_latent=True)` latent output
  (line 229) -/
  | quantizerLatent (params : Nat) (x : DT)
  /-- `proj.permute(0,2,1)` (line 230) -/
  | permute021d (x : DT)
deriving DecidableEq

/-- The state TransformerDiffusion.__init__ (lines 64-148) stores on self,
with learned submodules as opaque parameter ids.  The source creates either
the ar_prior pair (ar_input, ar_prior_intg) or the converter pair
(input_converter, code_converter) according to ar_prior; both ids are present
here and forward consults ar_prior, as the source does. -/
structure TransformerDiffusion where
  in_channels : Nat
  model_channels : Nat
  prenet_channels : Nat
  out_channels : Nat
  dropout : ℚ
  unconditioned_percentage : ℚ
  enable_fp16 : Bool
  inp_block : Nat
  time_embed : Nat
  ar_prior : Bool
  ar_input : Nat
  ar_prior_intg : Nat
  input_converter : Nat
  code_converter : Nat
  unconditioned_embedding : Nat
  rotary_embeddings : Nat
  intg : Nat
  layers : List Nat
  out : Nat

/-- Embedding of `timestep_independent` (lines 158-170).  `training` is the
nn.Module training flag and `uncondDraws` the outcomes of the random
classifier-free masking draw. -/
def TransformerDiffusion.timestep_independent (m : TransformerDiffusion)
    (training : Bool) (uncondDraws : List Bool) (prior : DT) (prior_batch : Nat)
    (expected_seq_len : Nat) : DT :=
  let code_emb := if m.ar_prior then DT.arInput m.ar_input prior
    else DT.inputConverter m.input_converter prior
  let code_emb := if training ∧ 0 < m.unconditioned_percentage then
      DT.whereUncond uncondDraws
        (DT.uncondRepeatBatch m.unconditioned_embedding prior_batch) code_emb
    else code_emb
  let code_emb := if m.ar_prior then DT.arPriorIntg m.ar_prior_intg code_emb
    else DT.codeConverter m.code_converter code_emb
  DT.interpolateNearest code_emb expected_seq_len

/-- Embedding of `TransformerDiffusion.forward` (lines 172-203).  The assert
of lines 173-174 raises exactly when precomputed_code_embeddings is provided
together with a non-None codes or conditioning_input.  `x_shape0` and
`x_shapeLast` are x.shape[0] and x.shape[-1], `codes_shape0` is
codes.shape[0].  When neither embeddings nor codes are given on the
conditioned path, `self.timestep_independent(None, ...)` applies a linear
layer to None, which raises a TypeError in torch. -/
def TransformerDiffusion.forward (m : TransformerDiffusion) (training : Bool)
    (uncondDraws : List Bool) (x : DT) (x_shape0 x_shapeLast : Nat)
    (timesteps : DT) (codes : Option DT) (codes_shape0 : Nat)
    (conditioning_input : Option DT) (precomputed_code_embeddings : Option DT)
    (conditioning_free : Bool) : Except PyErr DT :=
  if precomputed_code_embeddings.isSome
      ∧ ¬(codes = none ∧ conditioning_input = none) then
    Except.error PyErr.assertionError
  else
    let code_emb? : Except PyErr DT :=
      if conditioning_free then
        Except.ok (DT.uncondRepeat m.unconditioned_embedding x_shape0 x_shapeLast)
      else match precomputed_code_embeddings with
        | some pce => Except.ok pce
        | none => match codes with
          | some c => Except.ok
              (m.timestep_independent training uncondDraws c codes_shape0 x_shapeLast)
          | none => Except.error PyErr.typeError
    match code_emb? with
    | Except.error e => Except.error e
    | Except.ok code_emb =>
        let unused_params : List Nat :=
          if conditioning_free then [] else [m.unconditioned_embedding]
        let blk_emb := DT.timeEmbed m.time_embed
          (DT.timestepEmbedding timesteps m.prenet_channels)
        let x1 := DT.inpBlockPermuted m.inp_block x
        let rotary_pos_emb := DT.rotary m.rotary_embeddings x1
        let x2 := DT.intgCat m.intg x1 code_emb
        let x3 := m.layers.foldl (fun acc p => DT.layerApp p acc blk_emb rotary_pos_emb) x2
        Except.ok (DT.plusZeroScaledMeans unused_params
          (DT.outBlock m.out (DT.toFloatPermuted x3)))

/-- The attributes of MusicQuantizer2 consulted by
TransformerDiffusionWithQuantizer.  Modelled from the spec: the class lives
in models/audio/music/music_quantizer2.py, which is not part of src/; here it
is only a holder of the Gumbel-temperature attributes (the nested
`quantizer.temperature` is flattened into `temperature`) together with a
black-box forward returning a decoder latent and a scalar diversity loss
(`diversity`, a function of the input). -/
structure MusicQuantizer2 where
  max_gumbel_temperature : ℚ
  min_gumbel_temperature : ℚ
  gumbel_temperature_decay : ℚ
  temperature : ℚ
  params : Nat
  diversity : DT → ℚ

/-- The state of TransformerDiffusionWithQuantizer (lines 206-216). -/
structure TransformerDiffusionWithQuantizer where
  internal_step : Nat
  freeze_quantizer_until : Nat
  diff : TransformerDiffusion
  quantizer : MusicQuantizer2

/-- Embedding of TransformerDiffusionWithQuantizer.__init__ (lines 207-216):
internal_step starts at 0; the quantizer is constructed with
max_gumbel_temperature=4 and min_gumbel_temperature=.5 (line 213-214), its
decay coming from MusicQuantizer2 (not in src/, so it is a parameter here);
line 215 then sets the quantizer temperature to min_gumbel_temperature.
(`del self.quantizer.up` only drops an unused submodule.) -/
def TransformerDiffusionWithQuantizer.init_ (freeze_quantizer_until : Nat)
    (diff : TransformerDiffusion) (gumbel_temperature_decay : ℚ)
    (diversity : DT → ℚ) (qparams : Nat) : TransformerDiffusionWithQuantizer :=
  let quantizer : MusicQuantizer2 :=
    { max_gumbel_temperature := 4
      min_gumbel_temperature := 1 / 2
      gumbel_temperature_decay := gumbel_temperature_decay
      temperature := 1 / 2
      params := qparams
      diversity := diversity }
  { internal_step := 0
    freeze_quantizer_until := freeze_quantizer_until
    diff := diff
    quantizer := quantizer }

/-- Embedding of `update_for_step` (lines 218-224).  Python computes
`max(0, self.internal_step - self.freeze_quantizer_until)`; Nat subtraction
truncates at 0 identically. -/
def TransformerDiffusionWithQuantizer.update_for_step
    (m : TransformerDiffusionWithQuantizer) (step : Nat) :
    TransformerDiffusionWithQuantizer :=
  let m := { m with internal_step := step }
  let qstep := m.internal_step - m.freeze_quantizer_until
  let newTemperature :=
    max (m.quantizer.max_gumbel_temperature
          * m.quantizer.gumbel_temperature_decay ^ qstep)
        m.quantizer.min_gumbel_temperature
  { m with quantizer := { m.quantizer with temperature := newTemperature } }

/-- Result of TransformerDiffusionWithQuantizer.forward (lines 241-243):
only the diffusion output, or the pair of it with the diversity loss. -/
inductive QOut where
  | single (diff : DT)
  | pair (diff : DT) (diversity_loss : ℚ)

/-- Embedding of `TransformerDiffusionWithQuantizer.forward` (lines 226-243).
`torch.set_grad_enabled` only toggles autograd recording and has no value
effect.  When the quantizer is frozen, `proj` gets the zero-scaled parameter
means added (lines 233-237) and the diversity loss is multiplied by 0. -/
def TransformerDiffusionWithQuantizer.forward
    (m : TransformerDiffusionWithQuantizer) (training : Bool)
    (uncondDraws : List Bool) (x : DT) (x_shape0 x_shapeLast : Nat)
    (timesteps truth_mel : DT) (truth_shape0 : Nat) (conditioning_input : DT)
    (disable_diversity conditioning_free : Bool) : Except PyErr QOut :=
  let quant_grad_enabled := m.freeze_quantizer_until < m.internal_step
  let proj := DT.permute021d (DT.quantizerLatent m.quantizer.params truth_mel)
  let diversity_loss := m.quantizer.diversity truth_mel
  let pd := if quant_grad_enabled then (proj, diversity_loss)
    else (DT.plusZeroScaledMeans [m.quantizer.params] proj, diversity_loss * 0)
  match m.diff.forward training uncondDraws x x_shape0 x_shapeLast timesteps
      (some pd.1) truth_shape0 (some conditioning_input) none conditioning_free with
  | Except.error e => Except.error e
  | Except.ok diff =>
      if disable_diversity then Except.ok (QOut.single diff)
      else Except.ok (QOut.pair diff pd.2)

/-- Claim C5: the assert of TransformerDiffusion.forward (lines 173-174)
raises exactly when precomputed_code_embeddings is provided together with a
non-None codes or a non-None conditioning_input; with
precomputed_code_embeddings None, or with both other arguments None, no
assertion fires. -/
theorem transformerDiffusion_forward_assertion_iff (m : TransformerDiffusion)
    (training : Bool) (draws : List Bool) (x : DT) (xb xs : Nat) (ts : DT)
    (codes : Option DT) (cb : Nat) (ci : Option DT) (pce : Option DT)
    (cf : Bool) :
    m.forward training draws x xb xs ts codes cb ci pce cf
        = Except.error PyErr.assertionError
      ↔ (pce.isSome ∧ (codes.isSome ∨ ci.isSome)) := by
  cases pce <;> cases codes <;> cases ci <;> cases cf <;>
    simp [TransformerDiffusion.forward]

/-- Claim C6: TransformerDiffusionWithQuantizer.forward always succeeds and
returns only the diffusion output when disable_diversity is true and the
pair (diffusion output, diversity loss) otherwise; the returned diversity
loss is the quantizer loss when internal_step exceeds
freeze_quantizer_until and 0 otherwise (the frozen branch multiplies it
by 0). -/
theorem quantizer_forward_output_shape_and_frozen_diversity
    (m : TransformerDiffusionWithQuantizer) (training : Bool)
    (draws : List Bool) (x : DT) (xb xs : Nat) (ts truth_mel : DT) (tb : Nat)
    (ci : DT) (dd cf : Bool) :
    ∃ d, m.forward training draws x xb xs ts truth_mel tb ci dd cf
      = Except.ok (if dd then QOut.single d
          else QOut.pair d (if m.freeze_quantizer_until < m.internal_step
            then m.quantizer.diversity truth_mel else 0)) := by
  unfold TransformerDiffusionWithQuantizer.forward
  by_cases hq : m.freeze_quantizer_until < m.internal_step
  · simp only [hq, if_true]
    cases cf <;> cases dd <;> exact ⟨_, rfl⟩
  · simp only [hq, if_false, mul_zero]
    cases cf <;> cases dd <;> exact ⟨_, rfl⟩

/-- Claim C10: after update_for_step(step) the quantizer temperature equals
max(max_gumbel_temperature * gumbel_temperature_decay ^ max(0, step -
freeze_quantizer_until), min_gumbel_temperature); with the decay in (0, 1]
and the temperatures fixed by __init__ (max 4, min 1/2, lines 213-215) it
always lies in [min_gumbel_temperature, max_gumbel_temperature] and is
non-increasing in step. -/
theorem update_for_step_temperature_spec
    (m : TransformerDiffusionWithQuantizer) (step s1 s2 : Nat)
    (hmax : m.quantizer.max_gumbel_temperature = 4)
    (hmin : m.quantizer.min_gumbel_temperature = 1 / 2)
    (hd0 : 0 < m.quantizer.gumbel_temperature_decay)
    (hd1 : m.quantizer.gumbel_temperature_decay ≤ 1)
    (hs : s1 ≤ s2) :
    (m.update_for_step step).quantizer.temperature
        = max (m.quantizer.max_gumbel_temperature
              * m.quantizer.gumbel_temperature_decay ^ (step - m.freeze_quantizer_until))
            m.quantizer.min_gumbel_temperature
    ∧ m.quantizer.min_gumbel_temperature ≤ (m.update_for_step step).quantizer.temperature
    ∧ (m.update_for_step step).quantizer.temperature ≤ m.quantizer.max_gumbel_temperature
    ∧ (m.update_for_step s2).quantizer.temperature
        ≤ (m.update_for_step s1).quantizer.temperature := by
  have hfor : ∀ s : Nat, (m.update_for_step s).quantizer.temperature
      = max (m.quantizer.max_gumbel_temperature
            * m.quantizer.gumbel_temperature_decay ^ (s - m.freeze_quantizer_until))
          m.quantizer.min_gumbel_temperature := fun s => rfl
  refine ⟨hfor step, ?_, ?_, ?_⟩
  · rw [hfor step]
    exact le_max_right _ _
  · rw [hfor step, hmax, hmin]
    refine max_le ?_ (by norm_num)
    exact mul_le_of_le_one_right (by norm_num) (pow_le_one₀ hd0.le hd1)
  · rw [hfor s1, hfor s2]
    refine max_le_max ?_ le_rfl
    have hq : m.quantizer.gumbel_temperature_decay ^ (s2 - m.freeze_quantizer_until)
        ≤ m.quantizer.gumbel_temperature_decay ^ (s1 - m.freeze_quantizer_until) :=
      pow_le_pow_of_le_one hd0.le hd1 (Nat.sub_le_sub_right hs _)
    have h4 : (0 : ℚ) ≤ m.quantizer.max_gumbel_temperature := by
      rw [hmax]
      norm_num
    exact mul_le_mul_of_nonneg_left hq h4

/-- A concrete TransformerDiffusion instance, used to instantiate witnesses. -/
def diffTest : TransformerDiffusion :=
  { in_channels := 256
    model_channels := 512
    prenet_channels := 256
    out_channels := 512
    dropout := 0
    unconditioned_percentage := 1 / 10
    enable_fp16 := false
    inp_block := 20
    time_embed := 21
    ar_prior := false
    ar_input := 22
    ar_prior_intg := 23
    input_converter := 24
    code_converter := 25
    unconditioned_embedding := 26
    rotary_embeddings := 27
    intg := 28
    layers := [30, 31]
    out := 29 }

/-- A concrete quantized-diffusion model (freeze at 5, decay 1). -/
def tdqTest : TransformerDiffusionWithQuantizer :=
  TransformerDiffusionWithQuantizer.init_ 5 diffTest 1 (fun _ => 0) 40

/-- Witness for claim C10 at a concrete model and steps. -/
theorem update_for_step_temperature_spec_witness :
    tdqTest.quantizer.max_gumbel_temperature = 4
    ∧ tdqTest.quantizer.min_gumbel_temperature = 1 / 2
    ∧ 0 < tdqTest.quantizer.gumbel_temperature_decay
    ∧ tdqTest.quantizer.gumbel_temperature_decay ≤ 1
    ∧ (1 : Nat) ≤ 7
    ∧ ((tdqTest.update_for_step 3).quantizer.temperature
          = max (tdqTest.quantizer.max_gumbel_temperature
                * tdqTest.quantizer.gumbel_temperature_decay
                    ^ (3 - tdqTest.freeze_quantizer_until))
              tdqTest.quantizer.min_gumbel_temperature
        ∧ tdqTest.quantizer.min_gumbel_temperature
            ≤ (tdqTest.update_for_step 3).quantizer.temperature
        ∧ (tdqTest.update_for_step 3).quantizer.temperature
            ≤ tdqTest.quantizer.max_gumbel_temperature
        ∧ (tdqTest.update_for_step 7).quantizer.temperature
            ≤ (tdqTest.update_for_step 1).quantizer.temperature) :=
  ⟨rfl, rfl, zero_lt_one, le_rfl, by decide,
    update_for_step_temperature_spec tdqTest 3 1 7 rfl rfl zero_lt_one le_rfl (by decide)⟩
